import Mathlib

/-!
# Article CRUD handler: claim extractor, authorization gate, record store adapter, dispatcher

A shallow embedding of `jtw.go`, `dynamo.go` and `handler.go`.

* Go functions become Lean functions with explicit state passing: every function that
  talks to the key-value backend takes the backend state and returns the new one.
* A Go run either returns, panics, or fails to return within the number of loop rounds
  that the model follows; `Run` records which.
* Third-party libraries (token decoding, JSON, uuid) are parameters, gathered in `Env`.
* The managed key-value table is modelled by `DB`: a list of items keyed by `id`.
-/

namespace CrmBack

/-! ## Go runtime -/

/-- Outcome of running a Go function: it returns a value, it panics, or it has not
returned when the bound on loop rounds is reached. -/
inductive Run (α : Type) where
  | done (a : α)
  | panic (msg : String)
  | stalled
deriving DecidableEq, Repr

/-- One link of a Go error chain, as far as `errors.As` in `updateItem` can tell links apart. -/
inductive ErrNode where
  | operationError
  | conditionalCheckFailed
  | other (msg : String)
deriving DecidableEq, Repr

/-- A Go `error` value: the chain obtained by unwrapping, outermost link first. -/
abbrev GoError := List ErrNode

/-- Whether `errors.As(err, &smErr)` succeeds for `smErr *smithy.OperationError`. -/
def asOperationError (err : GoError) : Bool :=
  err.any (fun n => decide (n = ErrNode.operationError))

/-- Whether `errors.As(err, &condCheckFailed)` succeeds for
`condCheckFailed *types.ConditionalCheckFailedException`. -/
def asConditionalCheckFailed (err : GoError) : Bool :=
  err.any (fun n => decide (n = ErrNode.conditionalCheckFailed))

/-- A Go slice; `none` is the nil slice. -/
abbrev Slice (α : Type) := Option (List α)

/-- Go `append(a, b...)`: appending nothing to the nil slice leaves it nil. -/
def goAppend {α : Type} (a b : Slice α) : Slice α :=
  match a, b.getD [] with
  | none, [] => none
  | a, l => some (a.getD [] ++ l)

/-- Lookup in a Go `map[string]string`, with the comma-ok result as an `Option`. -/
def mapGet (m : List (String × String)) (k : String) : Option String :=
  m.lookup k

/-- Go `http.StatusText` on the status codes this program uses. -/
def statusText (status : Nat) : String :=
  if status = 400 then "Bad Request"
  else if status = 401 then "Unauthorized"
  else if status = 404 then "Not Found"
  else if status = 405 then "Method Not Allowed"
  else if status = 422 then "Unprocessable Entity"
  else if status = 500 then "Internal Server Error"
  else ""

/-! ## Data model (`dynamo.go`, `handler.go`) -/

/-- The `Article` struct of `dynamo.go`. -/
structure Article where
  Id : String
  Title : String
  Content : String
deriving DecidableEq, Repr

/-- The `CreateArticle` struct of `handler.go`. -/
structure CreateArticle where
  Title : String
  Content : String
  Tag : String
deriving DecidableEq, Repr

/-- The `UpdateArticle` struct of `handler.go`. -/
structure UpdateArticle where
  Title : String
  Content : String
  Tag : String
deriving DecidableEq, Repr

/-- The fields of `events.APIGatewayProxyRequest` that the handler reads. -/
structure Request where
  HTTPMethod : String
  PathParameters : List (String × String)
  QueryStringParameters : List (String × String)
  Headers : List (String × String)
  Body : String
deriving DecidableEq, Repr

/-- The fields of `events.APIGatewayProxyResponse` that the handler sets. -/
structure Response where
  StatusCode : Nat
  Headers : List (String × String)
  Body : String
deriving DecidableEq, Repr

/-! ## Key-value backend -/

/-- A stored item: an attribute map with the string key attribute `id` and the string
attributes `title` and `content`, each of which may be missing. These are the only
attributes the program writes or decodes. -/
structure Item where
  id : String
  title : Option String
  content : Option String
deriving DecidableEq, Repr

/-- The `ReturnValues` request parameter. -/
inductive ReturnValue where
  | NONE
  | ALL_OLD
  | ALL_NEW
deriving DecidableEq, Repr

/-- The fields of `dynamodb.ScanOutput` that `listArticles` reads. -/
structure ScanOutput where
  Items : List Item
  LastEvaluatedKey : Option String
deriving DecidableEq, Repr

/-- State of the backend as seen through the client handle `db`.

* `table`: the stored items;
* `fault`: when set, the backend is failing and every call returns this error;
* `pageSize`: the most items a single `Scan` call returns;
* `calls`: the API calls made so far, oldest first. -/
structure DB where
  table : List Item
  fault : Option GoError
  pageSize : Nat
  calls : List String
deriving DecidableEq, Repr

/-- The error `UpdateItem` returns when the condition expression is false: the client
wraps the service exception in a `smithy.OperationError`. -/
def conditionalCheckFailedSignal : GoError :=
  [ErrNode.operationError, ErrNode.other "https response error", ErrNode.conditionalCheckFailed]

/-- Records an API call in the backend state. -/
def DB.record (db : DB) (call : String) : DB :=
  { db with calls := db.calls ++ [call] }

/-- The stored item with primary key `key`, if any. -/
def DB.find (db : DB) (key : String) : Option Item :=
  db.table.find? (fun it => decide (it.id = key))

/-- The attributes a write returns under `ReturnValues = rv`. -/
def returnedAttributes (rv : ReturnValue) (old new : Option Item) : Option Item :=
  match rv with
  | ReturnValue.NONE => none
  | ReturnValue.ALL_OLD => old
  | ReturnValue.ALL_NEW => new

/-- Backend `GetItem`: the item under `key`, or no item. -/
def DB.GetItem (db : DB) (key : String) : Except GoError (Option Item) × DB :=
  match db.fault with
  | some e => (Except.error e, db.record "GetItem")
  | none => (Except.ok (db.find key), db.record "GetItem")

/-- Backend `PutItem`: stores `item`, replacing any item with the same key. -/
def DB.PutItem (db : DB) (item : Item) (rv : ReturnValue) :
    Except GoError (Option Item) × DB :=
  match db.fault with
  | some e => (Except.error e, db.record "PutItem")
  | none =>
    (Except.ok (returnedAttributes rv (db.find item.id) (some item)),
      { db.record "PutItem" with
        table := db.table.filter (fun it => !decide (it.id = item.id)) ++ [item] })

/-- Backend `DeleteItem`: removes the item under `key`, if any. -/
def DB.DeleteItem (db : DB) (key : String) (rv : ReturnValue) :
    Except GoError (Option Item) × DB :=
  match db.fault with
  | some e => (Except.error e, db.record "DeleteItem")
  | none =>
    (Except.ok (returnedAttributes rv (db.find key) none),
      { db.record "DeleteItem" with
        table := db.table.filter (fun it => !decide (it.id = key)) })

/-- Backend `UpdateItem` with the update expression `SET title = :t, content = :c` and the
condition expression `id = :condId`. The condition is evaluated on the item under `key`;
when there is no such item the attribute `id` is missing and the condition is false. A
false condition fails the call with the conditional-check-failed signal and writes nothing. -/
def DB.UpdateItem (db : DB) (key condId title content : String) (rv : ReturnValue) :
    Except GoError (Option Item) × DB :=
  match db.fault with
  | some e => (Except.error e, db.record "UpdateItem")
  | none =>
    match db.find key with
    | none => (Except.error conditionalCheckFailedSignal, db.record "UpdateItem")
    | some old =>
      if old.id = condId then
        (Except.ok (returnedAttributes rv (some old)
            (some { old with title := some title, content := some content })),
          { db.record "UpdateItem" with
            table := db.table.map (fun it =>
              if it.id = key then { it with title := some title, content := some content }
              else it) })
      else (Except.error conditionalCheckFailedSignal, db.record "UpdateItem")

/-- The items a `Scan` resuming after `start` still has to deliver. -/
def DB.remaining (db : DB) (start : Option String) : List Item :=
  match start with
  | none => db.table
  | some k => (db.table.dropWhile (fun it => !decide (it.id = k))).drop 1

/-- Backend `Scan`: at most `pageSize` items after the exclusive start key, and the key of
the last delivered item as continuation token when items remain. -/
def DB.Scan (db : DB) (start : Option String) : Except GoError ScanOutput × DB :=
  match db.fault with
  | some e => (Except.error e, db.record "Scan")
  | none =>
    let rest := db.remaining start
    let page := rest.take db.pageSize
    (Except.ok
      { Items := page
        LastEvaluatedKey :=
          if rest.drop db.pageSize = [] then none else page.getLast?.map (fun it => it.id) },
      db.record "Scan")

/-! ## Token decoding (`github.com/golang-jwt/jwt`) -/

/-- A JSON value as `encoding/json` decodes it into an `interface{}`. -/
inductive JsonValue where
  | null
  | bool (b : Bool)
  | number (literal : String)
  | str (s : String)
  | array (vs : List JsonValue)
  | object (keys : List String)

/-- Go `v == s` for an `interface{}` value `v` and a string constant `s`: true exactly when
`v` holds a string equal to `s`. -/
def JsonValue.eqString (v : JsonValue) (s : String) : Bool :=
  match v with
  | JsonValue.str t => decide (t = s)
  | _ => false

/-- The field of `jwt.Token` that `parseGroup` reads. `Claims` is an interface value:
`none` is the nil interface, `some m` holds a `jwt.MapClaims`. -/
structure Token where
  Claims : Option (List (String × JsonValue))

/-- The libraries and missing collaborators the program calls.

* `jwtParse`: `jwt.Parse` with the key function of `parseGroup`; returns the token pointer
  (`none` is nil) and the error;
* `jsonUnmarshalCreate`, `jsonUnmarshalUpdate`: `json.Unmarshal` of a request body into a
  `CreateArticle`, an `UpdateArticle`; `none` is a decoding error. A field missing from the
  body keeps its zero value, the empty string;
* `jsonMarshal`: `json.Marshal` of an `Article`, which cannot fail on a struct of strings;
* `uuidNewString`: the value `uuid.NewString()` returns;
* `getArticleByTag`: the tag lookup of the store adapter, which `handler.go` calls and
  `dynamo.go` does not define;
* `scanRounds`: how many rounds of the `listArticles` loop the model follows. -/
structure Env where
  jwtParse : String → Option Token × Option GoError
  jsonUnmarshalCreate : String → Option CreateArticle
  jsonUnmarshalUpdate : String → Option UpdateArticle
  jsonMarshal : Article → String
  uuidNewString : String
  getArticleByTag : DB → String → Except GoError (Option Article) × DB
  scanRounds : Nat

/-! ## `jtw.go` -/

/-- The `for _, v := range elem.([]interface{})` loop of `parseGroup`, with the final
`return "error"` when the loop ends without a match. -/
def parseGroupLoop : List JsonValue → String
  | [] => "error"
  | v :: rest =>
    if v.eqString "User" then "user"
    else if v.eqString "Admin" then "admin"
    else parseGroupLoop rest

/-- The function `parseGroup` of `jtw.go`. The error of `jwt.Parse` is only printed. The field
access `token2.Claims` panics on a nil token, the assertion `.(jwt.MapClaims)` panics on a
nil interface, and the assertion `elem.([]interface{})` panics on anything but a list. -/
def parseGroup (env : Env) (token : String) : Run String :=
  match (env.jwtParse token).1 with
  | none => Run.panic "invalid memory address or nil pointer dereference"
  | some token2 =>
    match token2.Claims with
    | none => Run.panic "interface conversion: interface is nil, not jwt.MapClaims"
    | some claims =>
      match claims.lookup "cognito:groups" with
      | some elem =>
        match elem with
        | JsonValue.array vs => Run.done (parseGroupLoop vs)
        | _ => Run.panic "interface conversion: interface \x7b\x7d is not []interface \x7b\x7d"
      | none => Run.done "error"

/-- The function `checkGroupCognito` of `jtw.go`. -/
def checkGroupCognito (env : Env) (token : String) (roleExpected : String) : Run Response :=
  match parseGroup env token with
  | Run.done role =>
    if role ≠ roleExpected then
      Run.done { StatusCode := 401, Headers := [], Body := "Unauthorized" }
    else
      Run.done { StatusCode := 0, Headers := [], Body := "" }
  | Run.panic msg => Run.panic msg
  | Run.stalled => Run.stalled

/-! ## `dynamo.go`

Items hold string attributes only, so the library calls that encode and decode them cannot
fail: `attributevalue.Marshal` of the id, `attributevalue.MarshalMap` of an `Article`,
`attributevalue.UnmarshalMap` and `UnmarshalListOfMaps` into `Article`, and the build of the
fixed update expression. The `if err != nil` returns that follow these calls are therefore
left out; the error returns that follow backend calls are kept. -/

/-- The library call `attributevalue.MarshalMap` on an `Article`: one string attribute per field
(tags `id`, `title`, `content`). It cannot fail on a struct of strings. -/
def MarshalMap (article : Article) : Item :=
  { id := article.Id, title := some article.Title, content := some article.Content }

/-- The library call `attributevalue.UnmarshalMap` into an `Article`: every attribute
present in the map overwrites its field, the other fields are left as they are; a nil map
changes nothing. -/
def UnmarshalMap (attrs : Option Item) (out : Article) : Article :=
  match attrs with
  | none => out
  | some it =>
    { Id := it.id, Title := it.title.getD out.Title, Content := it.content.getD out.Content }

/-- Go `new(Article)`: the zero value. -/
def newArticle : Article :=
  { Id := "", Title := "", Content := "" }

/-- The library call `attributevalue.UnmarshalListOfMaps` into a `[]Article`. -/
def UnmarshalListOfMaps (items : List Item) : Slice Article :=
  some (items.map (fun it => UnmarshalMap (some it) newArticle))

/-- The function `getArticle` of `dynamo.go`. -/
def getArticle (db : DB) (id : String) : Except GoError (Option Article) × DB :=
  match db.GetItem id with
  | (Except.error err, db1) => (Except.error err, db1)
  | (Except.ok item, db1) =>
    match item with
    | none => (Except.ok none, db1)
    | some it => (Except.ok (some (UnmarshalMap (some it) newArticle)), db1)

/-- The function `insertArticle` of `dynamo.go`. The put request sets no `ReturnValues`. -/
def insertArticle (env : Env) (db : DB) (createArticle : CreateArticle) :
    Except GoError (Option Article) × DB :=
  let article : Article :=
    { Title := createArticle.Title, Content := createArticle.Content, Id := env.uuidNewString }
  let item := MarshalMap article
  match db.PutItem item ReturnValue.NONE with
  | (Except.error err, db1) => (Except.error err, db1)
  | (Except.ok attributes, db1) => (Except.ok (some (UnmarshalMap attributes article)), db1)

/-- The function `deleteArticle` of `dynamo.go`. -/
def deleteArticle (db : DB) (id : String) : Except GoError (Option Article) × DB :=
  match db.DeleteItem id ReturnValue.ALL_OLD with
  | (Except.error err, db1) => (Except.error err, db1)
  | (Except.ok attributes, db1) =>
    match attributes with
    | none => (Except.ok none, db1)
    | some it => (Except.ok (some (UnmarshalMap (some it) newArticle)), db1)

/-- The loop of `listArticles`, over any backend state `σ` with a `Scan` call. `rounds` bounds
the number of rounds followed; the Go loop has no bound. `token` is the start key of the next
request and `articles` the records accumulated so far. -/
def listArticlesLoop {σ : Type} (Scan : σ → Option String → Except GoError ScanOutput × σ) :
    Nat → σ → Option String → Slice Article → Run (Except GoError (Slice Article) × σ)
  | 0, _, _, _ => Run.stalled
  | rounds + 1, s, token, articles =>
    match Scan s token with
    | (Except.error err, s1) => Run.done (Except.error err, s1)
    | (Except.ok result, s1) =>
      let fetchedArticles := UnmarshalListOfMaps result.Items
      let articles := goAppend articles fetchedArticles
      match result.LastEvaluatedKey with
      | none => Run.done (Except.ok articles, s1)
      | some key => listArticlesLoop Scan rounds s1 (some key) articles

/-- The function `listArticles` of `dynamo.go`: starts from `make([]Article, 0)` and a nil
start key. -/
def listArticles {σ : Type} (Scan : σ → Option String → Except GoError ScanOutput × σ)
    (rounds : Nat) (s : σ) : Run (Except GoError (Slice Article) × σ) :=
  listArticlesLoop Scan rounds s none (some [])

/-- The function `updateItem` of `dynamo.go`. Key and condition value are both `id`. -/
def updateItem (db : DB) (id : String) (updateArticle : UpdateArticle) :
    Except GoError (Option Article) × DB :=
  match db.UpdateItem id id updateArticle.Title updateArticle.Content ReturnValue.ALL_NEW with
  | (Except.error err, db1) =>
    if asOperationError err then
      if asConditionalCheckFailed err then (Except.ok none, db1)
      else (Except.error err, db1)
    else (Except.error err, db1)
  | (Except.ok attributes, db1) =>
    match attributes with
    | none => (Except.ok none, db1)
    | some it => (Except.ok (some (UnmarshalMap (some it) newArticle)), db1)

/-- A backend that answers successive `Scan` calls with the responses in `pending`, and
records the start key of every request in `startKeys`. -/
structure ScanScript where
  pending : List (Except GoError ScanOutput)
  startKeys : List (Option String)

/-- The `Scan` call of a scripted backend. -/
def ScanScript.Scan (s : ScanScript) (start : Option String) :
    Except GoError ScanOutput × ScanScript :=
  match s.pending with
  | [] => (Except.error [ErrNode.other "no response"],
      { pending := [], startKeys := s.startKeys ++ [start] })
  | r :: rest => (r, { pending := rest, startKeys := s.startKeys ++ [start] })

/-! ## `handler.go` -/

/-- The check `validate.Struct` on a `CreateArticle`: `Title` and `Content` carry the tag
`required`, which rejects the zero value. -/
def validateCreate (c : CreateArticle) : Bool :=
  !decide (c.Title = "") && !decide (c.Content = "")

/-- The check `validate.Struct` on an `UpdateArticle`. -/
def validateUpdate (u : UpdateArticle) : Bool :=
  !decide (u.Title = "") && !decide (u.Content = "")

/-- Go `json.Marshal` of a `[]Article`: `null` for the nil slice, else a JSON array. -/
def jsonMarshalSlice (env : Env) (articles : Slice Article) : String :=
  match articles with
  | none => "null"
  | some l => "[" ++ ",".intercalate (l.map env.jsonMarshal) ++ "]"

/-- The function `clientError` of `handler.go`. -/
def clientError (status : Nat) : Response :=
  { Body := statusText status, StatusCode := status, Headers := [] }

/-- The function `serverError` of `handler.go`. -/
def serverError (_err : GoError) : Response :=
  { Body := statusText 500, StatusCode := 500, Headers := [] }

/-- The function `processGetArticlesByTag` of `handler.go`. -/
def processGetArticlesByTag (env : Env) (db : DB) (tag : String) : Run (Response × DB) :=
  match env.getArticleByTag db tag with
  | (Except.error err, db1) => Run.done (serverError err, db1)
  | (Except.ok none, db1) => Run.done (clientError 404, db1)
  | (Except.ok (some article), db1) =>
    Run.done
      ({ StatusCode := 200
         Headers := [("Access-Control-Allow-Origin", "*"),
                     ("Access-Control-Allow-Methods", "GET"),
                     ("Access-Control-Allow-Headers", "Content-Type")]
         Body := env.jsonMarshal article }, db1)

/-- The function `processGetArticle` of `handler.go`. -/
def processGetArticle (env : Env) (db : DB) (id : String) : Run (Response × DB) :=
  match getArticle db id with
  | (Except.error err, db1) => Run.done (serverError err, db1)
  | (Except.ok none, db1) => Run.done (clientError 404, db1)
  | (Except.ok (some article), db1) =>
    Run.done
      ({ StatusCode := 200
         Headers := [("Access-Control-Allow-Origin", "*"),
                     ("Access-Control-Allow-Methods", "GET"),
                     ("Access-Control-Allow-Headers", "Content-Type")]
         Body := env.jsonMarshal article }, db1)

/-- The function `processGetArticles` of `handler.go`. -/
def processGetArticles (env : Env) (db : DB) : Run (Response × DB) :=
  match listArticles DB.Scan env.scanRounds db with
  | Run.panic msg => Run.panic msg
  | Run.stalled => Run.stalled
  | Run.done (Except.error err, db1) => Run.done (serverError err, db1)
  | Run.done (Except.ok articles, db1) =>
    Run.done
      ({ StatusCode := 200
         Headers := [("Access-Control-Allow-Origin", "*"),
                     ("Access-Control-Allow-Methods", "GET"),
                     ("Access-Control-Allow-Headers", "Content-Type")]
         Body := jsonMarshalSlice env articles }, db1)

/-- The function `processGet` of `handler.go`. -/
def processGet (env : Env) (db : DB) (req : Request) : Run (Response × DB) :=
  match mapGet req.QueryStringParameters "tag" with
  | some tag => processGetArticlesByTag env db tag
  | none =>
    match mapGet req.PathParameters "id" with
    | none => processGetArticles env db
    | some id => processGetArticle env db id

/-- The function `processPost` of `handler.go`. A nil `res` would panic at `res.Id`. -/
def processPost (env : Env) (db : DB) (req : Request) : Run (Response × DB) :=
  let token := (mapGet req.Headers "Authorization").getD ""
  match checkGroupCognito env token "admin" with
  | Run.panic msg => Run.panic msg
  | Run.stalled => Run.stalled
  | Run.done unautorized =>
    if unautorized.StatusCode ≠ 0 then Run.done (unautorized, db)
    else
      match env.jsonUnmarshalCreate req.Body with
      | none => Run.done (clientError 422, db)
      | some createArticle =>
        if validateCreate createArticle = false then Run.done (clientError 400, db)
        else
          match insertArticle env db createArticle with
          | (Except.error err, db1) => Run.done (serverError err, db1)
          | (Except.ok none, _) => Run.panic "invalid memory address or nil pointer dereference"
          | (Except.ok (some res), db1) =>
            Run.done
              ({ StatusCode := 201
                 Body := env.jsonMarshal res
                 Headers := [("Access-Control-Allow-Origin", "*"),
                             ("Access-Control-Allow-Methods", "POST"),
                             ("Access-Control-Allow-Headers", "Content-Type"),
                             ("Location", "/article/" ++ res.Id)] }, db1)

/-- The function `processDelete` of `handler.go`. -/
def processDelete (env : Env) (db : DB) (req : Request) : Run (Response × DB) :=
  let token := (mapGet req.Headers "Authorization").getD ""
  match checkGroupCognito env token "admin" with
  | Run.panic msg => Run.panic msg
  | Run.stalled => Run.stalled
  | Run.done unautorized =>
    if unautorized.StatusCode ≠ 0 then Run.done (unautorized, db)
    else
      match mapGet req.PathParameters "id" with
      | none => Run.done (clientError 400, db)
      | some id =>
        match deleteArticle db id with
        | (Except.error err, db1) => Run.done (serverError err, db1)
        | (Except.ok none, db1) => Run.done (clientError 404, db1)
        | (Except.ok (some article), db1) =>
          Run.done
            ({ StatusCode := 200
               Body := env.jsonMarshal article
               Headers := [("Access-Control-Allow-Origin", "*"),
                           ("Access-Control-Allow-Methods", "DELETE"),
                           ("Access-Control-Allow-Headers", "Content-Type")] }, db1)

/-- The function `processPut` of `handler.go`. -/
def processPut (env : Env) (db : DB) (req : Request) : Run (Response × DB) :=
  match mapGet req.PathParameters "id" with
  | none => Run.done (clientError 400, db)
  | some id =>
    match env.jsonUnmarshalUpdate req.Body with
    | none => Run.done (clientError 422, db)
    | some updateArticle =>
      if validateUpdate updateArticle = false then Run.done (clientError 400, db)
      else
        match updateItem db id updateArticle with
        | (Except.error err, db1) => Run.done (serverError err, db1)
        | (Except.ok none, db1) => Run.done (clientError 404, db1)
        | (Except.ok (some res), db1) =>
          Run.done
            ({ StatusCode := 200
               Body := env.jsonMarshal res
               Headers := [("Location", "/todo/" ++ res.Id),
                           ("Access-Control-Allow-Origin", "*"),
                           ("Access-Control-Allow-Methods", "PUT"),
                           ("Access-Control-Allow-Headers", "Content-Type")] }, db1)

/-- The function `router` of `handler.go`. Every handler returns a nil error next to its
response, so only the response is kept. -/
def router (env : Env) (db : DB) (req : Request) : Run (Response × DB) :=
  if req.HTTPMethod = "GET" then processGet env db req
  else if req.HTTPMethod = "POST" then processPost env db req
  else if req.HTTPMethod = "DELETE" then processDelete env db req
  else if req.HTTPMethod = "PUT" then processPut env db req
  else Run.done (clientError 405, db)

/-- The records of a sequence of scan pages, page after page, in the order delivered. -/
def recordsOf (pages : List ScanOutput) : List Article :=
  (pages.map (fun p => p.Items.map (fun it => UnmarshalMap (some it) newArticle))).flatten

/-- A scripted backend that has yet to answer with `responses` and has seen no request. -/
def scripted (responses : List (Except GoError ScanOutput)) : ScanScript :=
  { pending := responses, startKeys := [] }

/-! ## Sample inputs -/

/-- A token decoder for the examples: a string without exactly two dots is not a
three-segment token and yields a nil token; the payload segment selects the claims. A decoded
token still comes with an error, since the key function of `parseGroup` returns no usable key. -/
def sampleJwtParse (token : String) : Option Token × Option GoError :=
  if token.toList.count '.' ≠ 2 then
    (none, some [ErrNode.other "token contains an invalid number of segments"])
  else if token = "h.admin.s" then
    (some { Claims := some [("sub", JsonValue.str "u1"),
                            ("cognito:groups", JsonValue.array [JsonValue.str "Admin"])] },
      some [ErrNode.other "key is of invalid type"])
  else if token = "h.user.s" then
    (some { Claims := some [("cognito:groups", JsonValue.array [JsonValue.str "User"])] },
      some [ErrNode.other "key is of invalid type"])
  else if token = "h.user-admin.s" then
    (some { Claims := some [("cognito:groups",
              JsonValue.array [JsonValue.str "User", JsonValue.str "Admin"])] },
      some [ErrNode.other "key is of invalid type"])
  else if token = "h.admin-user.s" then
    (some { Claims := some [("cognito:groups",
              JsonValue.array [JsonValue.str "Admin", JsonValue.str "User"])] },
      some [ErrNode.other "key is of invalid type"])
  else if token = "h.guest.s" then
    (some { Claims := some [("cognito:groups",
              JsonValue.array [JsonValue.str "admin", JsonValue.number "7"])] },
      some [ErrNode.other "key is of invalid type"])
  else if token = "h.scalar.s" then
    (some { Claims := some [("cognito:groups", JsonValue.str "Admin")] },
      some [ErrNode.other "key is of invalid type"])
  else if token = "h.nogroups.s" then
    (some { Claims := some [("sub", JsonValue.str "u1")] },
      some [ErrNode.other "key is of invalid type"])
  else
    (some { Claims := none }, some [ErrNode.other "illegal base64 data"])

/-- A request-body decoder for the examples. -/
def sampleUnmarshal (body : String) : Option (String × String × String) :=
  if body = "title+content" then some ("T", "C", "news")
  else if body = "content-only" then some ("", "C", "")
  else if body = "empty-object" then some ("", "", "")
  else none

/-- An environment for the examples. -/
def sampleEnv : Env :=
  { jwtParse := sampleJwtParse
    jsonUnmarshalCreate := fun body =>
      (sampleUnmarshal body).map (fun t => { Title := t.1, Content := t.2.1, Tag := t.2.2 })
    jsonUnmarshalUpdate := fun body =>
      (sampleUnmarshal body).map (fun t => { Title := t.1, Content := t.2.1, Tag := t.2.2 })
    jsonMarshal := fun a => "<" ++ a.Id ++ "|" ++ a.Title ++ "|" ++ a.Content ++ ">"
    uuidNewString := "7f3c"
    getArticleByTag := fun db tag =>
      if tag = "news" then
        (Except.ok (some { Id := "a2", Title := "T2", Content := "C2" }), db.record "Query")
      else if tag = "down" then
        (Except.error [ErrNode.operationError, ErrNode.other "throttled"], db.record "Query")
      else (Except.ok none, db.record "Query")
    scanRounds := 8 }

/-- A request carrying `token` in its `Authorization` header. -/
def sampleRequest (method token body : String) (params : List (String × String)) : Request :=
  { HTTPMethod := method, PathParameters := params, QueryStringParameters := [],
    Headers := [("Authorization", token)], Body := body }

/-- A store with two records, answering calls, one item per scan page. -/
def sampleDB : DB :=
  { table := [{ id := "a1", title := some "T1", content := some "C1" },
              { id := "a2", title := some "T2", content := some "C2" }]
    fault := none
    pageSize := 1
    calls := [] }

/-- An empty store, answering calls. -/
def emptyDB : DB :=
  { table := [], fault := none, pageSize := 1, calls := [] }

/-! ## Properties of the claim extractor and the gate -/

theorem eqString_iff (v : JsonValue) (s : String) :
    v.eqString s = true ↔ v = JsonValue.str s := by
  cases v <;> simp [JsonValue.eqString]

theorem parseGroupLoop_admin (pre post : List JsonValue)
    (hpre : ∀ v ∈ pre, v ≠ JsonValue.str "User") :
    parseGroupLoop (pre ++ JsonValue.str "Admin" :: post) = "admin" := by
  induction pre with
  | nil => simp [parseGroupLoop, JsonValue.eqString]
  | cons v pre ih =>
    have hv : v.eqString "User" = false := by
      have := hpre v (by simp)
      cases h : v.eqString "User"
      · rfl
      · exact absurd ((eqString_iff v "User").1 h) this
    have ih1 := ih (fun w hw => hpre w (by simp [hw]))
    simp [parseGroupLoop, hv, ih1]

theorem parseGroupLoop_user (pre post : List JsonValue)
    (hpre : ∀ v ∈ pre, v ≠ JsonValue.str "Admin") :
    parseGroupLoop (pre ++ JsonValue.str "User" :: post) = "user" := by
  induction pre with
  | nil => simp [parseGroupLoop, JsonValue.eqString]
  | cons v pre ih =>
    have hv : v.eqString "Admin" = false := by
      have := hpre v (by simp)
      cases h : v.eqString "Admin"
      · rfl
      · exact absurd ((eqString_iff v "Admin").1 h) this
    have ih1 := ih (fun w hw => hpre w (by simp [hw]))
    simp [parseGroupLoop, hv, ih1]

theorem parseGroupLoop_neither (vs : List JsonValue)
    (ha : JsonValue.str "Admin" ∉ vs) (hu : JsonValue.str "User" ∉ vs) :
    parseGroupLoop vs = "error" := by
  induction vs with
  | nil => rfl
  | cons v vs ih =>
    have hv1 : v.eqString "User" = false := by
      cases h : v.eqString "User"
      · rfl
      · exact absurd ((eqString_iff v "User").1 h) (fun e => hu (by simp [e]))
    have hv2 : v.eqString "Admin" = false := by
      cases h : v.eqString "Admin"
      · rfl
      · exact absurd ((eqString_iff v "Admin").1 h) (fun e => ha (by simp [e]))
    have ih1 := ih (fun h => ha (by simp [h])) (fun h => hu (by simp [h]))
    simp [parseGroupLoop, hv1, hv2, ih1]

theorem parseGroup_of_list (env : Env) (token : String) (tk : Token)
    (claims : List (String × JsonValue)) (vs : List JsonValue)
    (hparse : (env.jwtParse token).1 = some tk) (hclaims : tk.Claims = some claims)
    (hgroups : claims.lookup "cognito:groups" = some (JsonValue.array vs)) :
    parseGroup env token = Run.done (parseGroupLoop vs) := by
  simp [parseGroup, hparse, hclaims, hgroups]

theorem parseGroup_nil_token (env : Env) (token : String)
    (h : (env.jwtParse token).1 = none) :
    parseGroup env token = Run.panic "invalid memory address or nil pointer dereference" := by
  simp [parseGroup, h]

theorem parseGroup_not_list (env : Env) (token s : String) (tk : Token)
    (claims : List (String × JsonValue))
    (hparse : (env.jwtParse token).1 = some tk) (hclaims : tk.Claims = some claims)
    (hgroups : claims.lookup "cognito:groups" = some (JsonValue.str s)) :
    parseGroup env token
      = Run.panic "interface conversion: interface \x7b\x7d is not []interface \x7b\x7d" := by
  simp [parseGroup, hparse, hclaims, hgroups]

/-- Claim C1 as stated fails: the token `h.user-admin.s` decodes to claims whose group list
is `["User", "Admin"]`; the list contains `"Admin"`, yet `parseGroup` returns `"user"`. -/
theorem C1_counterexample :
    (sampleEnv.jwtParse "h.user-admin.s").1
        = some { Claims := some [("cognito:groups",
            JsonValue.array [JsonValue.str "User", JsonValue.str "Admin"])] }
      ∧ JsonValue.str "Admin" ∈ [JsonValue.str "User", JsonValue.str "Admin"]
      ∧ parseGroup sampleEnv "h.user-admin.s" = Run.done "user"
      ∧ parseGroup sampleEnv "h.user-admin.s" ≠ Run.done "admin" := by
  refine ⟨rfl, by simp, by decide, by decide⟩

/-- Claim C1, amended: for every token that decodes to claims with a `cognito:groups` list,
`parseGroup` returns `"admin"` if the list contains `"Admin"` with no `"User"` before it,
returns `"user"` if it contains `"User"` with no `"Admin"` before it, and returns `"error"`
if it contains neither; the comparison is case-sensitive on whole strings. -/
theorem C1_parseGroup_first_match (env : Env) (token : String) (tk : Token)
    (claims : List (String × JsonValue)) (vs : List JsonValue)
    (hparse : (env.jwtParse token).1 = some tk) (hclaims : tk.Claims = some claims)
    (hgroups : claims.lookup "cognito:groups" = some (JsonValue.array vs)) :
    (∀ pre post, vs = pre ++ JsonValue.str "Admin" :: post →
        (∀ v ∈ pre, v ≠ JsonValue.str "User") → parseGroup env token = Run.done "admin")
      ∧ (∀ pre post, vs = pre ++ JsonValue.str "User" :: post →
        (∀ v ∈ pre, v ≠ JsonValue.str "Admin") → parseGroup env token = Run.done "user")
      ∧ (JsonValue.str "Admin" ∉ vs → JsonValue.str "User" ∉ vs →
        parseGroup env token = Run.done "error") := by
  have h := parseGroup_of_list env token tk claims vs hparse hclaims hgroups
  refine ⟨?_, ?_, ?_⟩
  · intro pre post hvs hpre
    rw [h, hvs, parseGroupLoop_admin pre post hpre]
  · intro pre post hvs hpre
    rw [h, hvs, parseGroupLoop_user pre post hpre]
  · intro ha hu
    rw [h, parseGroupLoop_neither vs ha hu]

/-- Claim C1, amended, at the token `h.admin-user.s` with group list `["Admin", "User"]`. -/
theorem C1_parseGroup_first_match_witness :
    parseGroup sampleEnv "h.admin-user.s" = Run.done "admin" :=
  (C1_parseGroup_first_match sampleEnv "h.admin-user.s"
    { Claims := some [("cognito:groups",
        JsonValue.array [JsonValue.str "Admin", JsonValue.str "User"])] }
    [("cognito:groups", JsonValue.array [JsonValue.str "Admin", JsonValue.str "User"])]
    [JsonValue.str "Admin", JsonValue.str "User"]
    rfl rfl rfl).1 [] [JsonValue.str "User"] rfl (by simp)

/-- Claim C2 fails on the code. With no `Authorization` header the token is the empty
string, `jwt.Parse` returns a nil token and `parseGroup` panics at `token2.Claims`; a token
that is not decodable leaves `Claims` nil and the assertion to `jwt.MapClaims` panics; a
token whose `cognito:groups` claim is a string panics at the assertion to a list. In each
case `checkGroupCognito` panics as well and answers nothing; only a token without the group
claim gives the role `"error"`. -/
theorem C2_parseGroup_panics :
    parseGroup sampleEnv "" = Run.panic "invalid memory address or nil pointer dereference"
      ∧ checkGroupCognito sampleEnv "" "admin"
          = Run.panic "invalid memory address or nil pointer dereference"
      ∧ parseGroup sampleEnv "Bearer h.admin.s"
          = Run.panic "interface conversion: interface is nil, not jwt.MapClaims"
      ∧ parseGroup sampleEnv "h.scalar.s"
          = Run.panic "interface conversion: interface \x7b\x7d is not []interface \x7b\x7d"
      ∧ checkGroupCognito sampleEnv "h.scalar.s" "admin"
          = Run.panic "interface conversion: interface \x7b\x7d is not []interface \x7b\x7d"
      ∧ parseGroup sampleEnv "h.nogroups.s" = Run.done "error" := by
  refine ⟨by decide, by decide, by decide, by decide, by decide, by decide⟩

theorem checkGroupCognito_of_role (env : Env) (token role roleExpected : String)
    (hrole : parseGroup env token = Run.done role) :
    checkGroupCognito env token roleExpected
      = Run.done (if role ≠ roleExpected
          then { StatusCode := 401, Headers := [], Body := "Unauthorized" }
          else { StatusCode := 0, Headers := [], Body := "" }) := by
  unfold checkGroupCognito
  rw [hrole]
  by_cases h : role = roleExpected <;> simp [h]

theorem router_post (env : Env) (db : DB) (req : Request) (hm : req.HTTPMethod = "POST") :
    router env db req = processPost env db req := by
  simp [router, hm]

theorem router_delete (env : Env) (db : DB) (req : Request)
    (hm : req.HTTPMethod = "DELETE") : router env db req = processDelete env db req := by
  simp [router, hm]

theorem router_put (env : Env) (db : DB) (req : Request) (hm : req.HTTPMethod = "PUT") :
    router env db req = processPut env db req := by
  simp [router, hm]

theorem router_get (env : Env) (db : DB) (req : Request) (hm : req.HTTPMethod = "GET") :
    router env db req = processGet env db req := by
  simp [router, hm]

theorem processPost_denied (env : Env) (db : DB) (req : Request) (role : String)
    (hrole : parseGroup env ((mapGet req.Headers "Authorization").getD "") = Run.done role)
    (hne : role ≠ "admin") :
    processPost env db req
      = Run.done ({ StatusCode := 401, Headers := [], Body := "Unauthorized" }, db) := by
  simp [processPost, checkGroupCognito_of_role env _ role "admin" hrole, hne]

theorem processDelete_denied (env : Env) (db : DB) (req : Request) (role : String)
    (hrole : parseGroup env ((mapGet req.Headers "Authorization").getD "") = Run.done role)
    (hne : role ≠ "admin") :
    processDelete env db req
      = Run.done ({ StatusCode := 401, Headers := [], Body := "Unauthorized" }, db) := by
  simp [processDelete, checkGroupCognito_of_role env _ role "admin" hrole, hne]

theorem processPost_admin (env : Env) (db : DB) (req : Request)
    (hrole : parseGroup env ((mapGet req.Headers "Authorization").getD "") = Run.done "admin") :
    processPost env db req =
      match env.jsonUnmarshalCreate req.Body with
      | none => Run.done (clientError 422, db)
      | some createArticle =>
        if validateCreate createArticle = false then Run.done (clientError 400, db)
        else
          match insertArticle env db createArticle with
          | (Except.error err, db1) => Run.done (serverError err, db1)
          | (Except.ok none, _) => Run.panic "invalid memory address or nil pointer dereference"
          | (Except.ok (some res), db1) =>
            Run.done
              ({ StatusCode := 201
                 Body := env.jsonMarshal res
                 Headers := [("Access-Control-Allow-Origin", "*"),
                             ("Access-Control-Allow-Methods", "POST"),
                             ("Access-Control-Allow-Headers", "Content-Type"),
                             ("Location", "/article/" ++ res.Id)] }, db1) := by
  simp [processPost, checkGroupCognito_of_role env _ "admin" "admin" hrole]

theorem processDelete_admin (env : Env) (db : DB) (req : Request)
    (hrole : parseGroup env ((mapGet req.Headers "Authorization").getD "") = Run.done "admin") :
    processDelete env db req =
      match mapGet req.PathParameters "id" with
      | none => Run.done (clientError 400, db)
      | some id =>
        match deleteArticle db id with
        | (Except.error err, db1) => Run.done (serverError err, db1)
        | (Except.ok none, db1) => Run.done (clientError 404, db1)
        | (Except.ok (some article), db1) =>
          Run.done
            ({ StatusCode := 200
               Body := env.jsonMarshal article
               Headers := [("Access-Control-Allow-Origin", "*"),
                           ("Access-Control-Allow-Methods", "DELETE"),
                           ("Access-Control-Allow-Headers", "Content-Type")] }, db1) := by
  simp [processDelete, checkGroupCognito_of_role env _ "admin" "admin" hrole]

theorem processPost_admin_status (env : Env) (db : DB) (req : Request)
    (hrole : parseGroup env ((mapGet req.Headers "Authorization").getD "") = Run.done "admin")
    (resp : Response) (db1 : DB) (h : processPost env db req = Run.done (resp, db1)) :
    resp.StatusCode = 422 ∨ resp.StatusCode = 400 ∨ resp.StatusCode = 500
      ∨ resp.StatusCode = 201 := by
  rw [processPost_admin env db req hrole] at h
  split at h
  · cases h; simp [clientError]
  · split at h
    · cases h; simp [clientError]
    · split at h
      · cases h; simp [serverError]
      · cases h
      · cases h; simp

theorem processDelete_admin_status (env : Env) (db : DB) (req : Request)
    (hrole : parseGroup env ((mapGet req.Headers "Authorization").getD "") = Run.done "admin")
    (resp : Response) (db1 : DB) (h : processDelete env db req = Run.done (resp, db1)) :
    resp.StatusCode = 400 ∨ resp.StatusCode = 500 ∨ resp.StatusCode = 404
      ∨ resp.StatusCode = 200 := by
  rw [processDelete_admin env db req hrole] at h
  split at h
  · cases h; simp [clientError]
  · split at h
    · cases h; simp [serverError]
    · cases h; simp [clientError]
    · cases h; simp

/-- Claim C3: a POST or DELETE request whose token yields a role other than `"admin"` is
answered 401 with body `Unauthorized`, whatever its body and path parameters, and the
backend state is returned as it was, with no call recorded. When the role is `"admin"` the
gate returns status code 0 and the handler goes on: the response is one of the handler's
own (never the gate's 401), a POST goes on to decode the body and a DELETE to look up
the path id. -/
theorem C3_gate_before_store (env : Env) (db : DB) (req : Request) (role : String)
    (hm : req.HTTPMethod = "POST" ∨ req.HTTPMethod = "DELETE")
    (hrole : parseGroup env ((mapGet req.Headers "Authorization").getD "") = Run.done role) :
    (role ≠ "admin" →
        router env db req
          = Run.done ({ StatusCode := 401, Headers := [], Body := "Unauthorized" }, db))
      ∧ (role = "admin" →
        checkGroupCognito env ((mapGet req.Headers "Authorization").getD "") "admin"
            = Run.done { StatusCode := 0, Headers := [], Body := "" }
          ∧ (∀ resp db1, router env db req = Run.done (resp, db1) → resp.StatusCode ≠ 401)
          ∧ (req.HTTPMethod = "POST" → env.jsonUnmarshalCreate req.Body = none →
              router env db req = Run.done (clientError 422, db))
          ∧ (req.HTTPMethod = "DELETE" → mapGet req.PathParameters "id" = none →
              router env db req = Run.done (clientError 400, db))) := by
  constructor
  · intro hne
    rcases hm with hm | hm
    · rw [router_post env db req hm]; exact processPost_denied env db req role hrole hne
    · rw [router_delete env db req hm]; exact processDelete_denied env db req role hrole hne
  · intro hadm
    subst hadm
    refine ⟨?_, ?_, ?_, ?_⟩
    · rw [checkGroupCognito_of_role env _ "admin" "admin" hrole]; simp
    · intro resp db1 h
      rcases hm with hm | hm
      · rw [router_post env db req hm] at h
        rcases processPost_admin_status env db req hrole resp db1 h with h1 | h1 | h1 | h1 <;>
          omega
      · rw [router_delete env db req hm] at h
        rcases processDelete_admin_status env db req hrole resp db1 h with h1 | h1 | h1 | h1 <;>
          omega
    · intro hp hbody
      rw [router_post env db req hp, processPost_admin env db req hrole, hbody]
    · intro hd hid
      rw [router_delete env db req hd, processDelete_admin env db req hrole, hid]

/-- Claim C3 at a DELETE request with a `"user"` token and no path id: 401, not 400. -/
theorem C3_gate_before_store_witness :
    router sampleEnv sampleDB
        { HTTPMethod := "DELETE", PathParameters := [], QueryStringParameters := [],
          Headers := [("Authorization", "h.user.s")], Body := "" }
      = Run.done ({ StatusCode := 401, Headers := [], Body := "Unauthorized" }, sampleDB) :=
  (C3_gate_before_store sampleEnv sampleDB
    { HTTPMethod := "DELETE", PathParameters := [], QueryStringParameters := [],
      Headers := [("Authorization", "h.user.s")], Body := "" } "user"
    (Or.inr rfl) (by decide)).1 (by decide)

/-! ## Properties of the backend model and the store adapter -/

theorem find_filter_key (l : List Item) (key : String) :
    (l.filter (fun it => !decide (it.id = key))).find? (fun it => decide (it.id = key)) = none := by
  induction l with
  | nil => rfl
  | cons x l ih =>
    by_cases h : x.id = key
    · simp [List.filter, h, ih]
    · simp [List.filter, h, List.find?, ih]

theorem filter_of_find_none (l : List Item) (key : String)
    (h : l.find? (fun it => decide (it.id = key)) = none) :
    l.filter (fun it => !decide (it.id = key)) = l := by
  induction l with
  | nil => rfl
  | cons x l ih =>
    by_cases hx : x.id = key
    · simp [List.find?, hx] at h
    · simp [List.find?, hx] at h
      simp [List.filter, hx]
      simpa using ih (by simpa using h)

theorem find_filter_other (l : List Item) (key k : String) (hk : k ≠ key) :
    (l.filter (fun it => !decide (it.id = key))).find? (fun it => decide (it.id = k))
      = l.find? (fun it => decide (it.id = k)) := by
  induction l with
  | nil => rfl
  | cons x l ih =>
    by_cases hx : x.id = key
    · have hxk : ¬ x.id = k := fun e => hk (e.symm.trans hx)
      rw [List.filter_cons_of_neg (by simp [hx]), List.find?_cons_of_neg _ (by simp [hxk]), ih]
    · rw [List.filter_cons_of_pos (by simp [hx])]
      by_cases hxk : x.id = k
      · rw [List.find?_cons_of_pos _ (by simp [hxk]), List.find?_cons_of_pos _ (by simp [hxk])]
      · rw [List.find?_cons_of_neg _ (by simp [hxk]), List.find?_cons_of_neg _ (by simp [hxk]), ih]

theorem find_id (l : List Item) (key : String) (it : Item)
    (h : l.find? (fun it => decide (it.id = key)) = some it) : it.id = key := by
  have := List.find?_some h
  simpa using this

theorem find_append_new (l : List Item) (item : Item) :
    (l.filter (fun it => !decide (it.id = item.id)) ++ [item]).find?
      (fun it => decide (it.id = item.id)) = some item := by
  rw [List.find?_append, find_filter_key]
  simp

theorem find_map_update (l : List Item) (key : String) (f : Item → Item)
    (hf : ∀ it, (f it).id = it.id) (old : Item)
    (h : l.find? (fun it => decide (it.id = key)) = some old) :
    (l.map (fun it => if it.id = key then f it else it)).find? (fun it => decide (it.id = key))
      = some (f old) := by
  induction l with
  | nil => simp at h
  | cons x l ih =>
    by_cases hx : x.id = key
    · simp [List.find?, hx] at h
      subst h
      simp [List.find?, hx, hf]
    · simp [List.find?, hx] at h
      simp [List.find?, hx]
      simpa using ih (by simpa using h)

theorem find_record (db : DB) (call key : String) : (db.record call).find key = db.find key :=
  rfl

theorem putItem_accepted (db : DB) (item : Item) (rv : ReturnValue)
    (haccept : ∀ e, (db.PutItem item rv).1 ≠ Except.error e) : db.fault = none := by
  cases hf : db.fault with
  | none => rfl
  | some e => exact absurd (by simp [DB.PutItem, hf]) (haccept e)

theorem getArticle_ok (db : DB) (id : String) (hf : db.fault = none) :
    getArticle db id
      = (Except.ok ((db.find id).map (fun it => UnmarshalMap (some it) newArticle)),
          db.record "GetItem") := by
  unfold getArticle DB.GetItem
  rw [hf]
  cases db.find id <;> rfl

theorem insertArticle_ok (env : Env) (db : DB) (c : CreateArticle) (hf : db.fault = none) :
    insertArticle env db c
      = (Except.ok (some { Id := env.uuidNewString, Title := c.Title, Content := c.Content }),
          { db.record "PutItem" with
            table := db.table.filter (fun it => !decide (it.id = env.uuidNewString))
              ++ [MarshalMap
                    { Id := env.uuidNewString, Title := c.Title, Content := c.Content }] }) := by
  simp [insertArticle, DB.PutItem, hf, returnedAttributes, UnmarshalMap, MarshalMap]

theorem deleteArticle_ok (db : DB) (id : String) (hf : db.fault = none) :
    deleteArticle db id
      = (Except.ok ((db.find id).map (fun it => UnmarshalMap (some it) newArticle)),
          { db.record "DeleteItem" with
            table := db.table.filter (fun it => !decide (it.id = id)) }) := by
  unfold deleteArticle DB.DeleteItem
  rw [hf]
  cases db.find id <;> rfl

theorem updateItem_absent (db : DB) (id : String) (u : UpdateArticle) (hf : db.fault = none)
    (habsent : db.find id = none) :
    updateItem db id u = (Except.ok none, db.record "UpdateItem") := by
  simp [updateItem, DB.UpdateItem, hf, habsent, conditionalCheckFailedSignal,
    asOperationError, asConditionalCheckFailed]

theorem updateItem_present (db : DB) (id : String) (u : UpdateArticle) (old : Item)
    (hf : db.fault = none) (hold : db.find id = some old) :
    updateItem db id u
      = (Except.ok (some { Id := id, Title := u.Title, Content := u.Content }),
          { db.record "UpdateItem" with
            table := db.table.map (fun it =>
              if it.id = id then { it with title := some u.Title, content := some u.Content }
              else it) }) := by
  have hid : old.id = id := find_id db.table id old hold
  simp [updateItem, DB.UpdateItem, hf, hold, hid, returnedAttributes, UnmarshalMap]

theorem unmarshal_marshal (a : Article) : UnmarshalMap (some (MarshalMap a)) newArticle = a := by
  cases a; rfl

/-- Claim C9: when the store accepts the write, `insertArticle` returns the record made of
the input's `Title` and `Content` and the freshly generated id, unaltered by decoding the
attributes the put returns; the id is non-empty when the generated one is; the input's `Tag`
has no effect; and a following `getArticle` on that id returns the same record. -/
theorem C9_create_get_round_trip (env : Env) (db : DB) (c : CreateArticle)
    (hid : env.uuidNewString ≠ "")
    (haccept : ∀ e, (db.PutItem
        (MarshalMap { Id := env.uuidNewString, Title := c.Title, Content := c.Content })
        ReturnValue.NONE).1 ≠ Except.error e) :
    ∃ res db1,
      insertArticle env db c = (Except.ok (some res), db1)
        ∧ res.Title = c.Title ∧ res.Content = c.Content
        ∧ res.Id = env.uuidNewString ∧ res.Id ≠ ""
        ∧ (∀ tag, insertArticle env db { c with Tag := tag } = insertArticle env db c)
        ∧ (getArticle db1 res.Id).1 = Except.ok (some res) := by
  have hf := putItem_accepted db _ _ haccept
  refine ⟨{ Id := env.uuidNewString, Title := c.Title, Content := c.Content }, _,
    insertArticle_ok env db c hf, rfl, rfl, rfl, hid, ?_, ?_⟩
  · intro tag
    rw [insertArticle_ok env db c hf, insertArticle_ok env db _ hf]
  · rw [getArticle_ok _ _ (by exact hf)]
    simp only [DB.find, DB.record]
    have h := find_append_new db.table
      (MarshalMap { Id := env.uuidNewString, Title := c.Title, Content := c.Content })
    simp only [MarshalMap] at h ⊢
    rw [h]
    rfl

/-- Claim C9 on the sample store: creating `T`/`C` and reading it back. -/
theorem C9_create_get_round_trip_witness :
    ∃ res db1,
      insertArticle sampleEnv sampleDB { Title := "T", Content := "C", Tag := "news" }
          = (Except.ok (some res), db1)
        ∧ res.Title = "T" ∧ res.Content = "C" ∧ res.Id = "7f3c" ∧ res.Id ≠ ""
        ∧ (∀ tag, insertArticle sampleEnv sampleDB { Title := "T", Content := "C", Tag := tag }
            = insertArticle sampleEnv sampleDB { Title := "T", Content := "C", Tag := "news" })
        ∧ (getArticle db1 res.Id).1 = Except.ok (some res) :=
  C9_create_get_round_trip sampleEnv sampleDB { Title := "T", Content := "C", Tag := "news" }
    (by decide) (by intro e h; simp [DB.PutItem, sampleDB] at h)

/-- Claim C10: with the backend answering, `deleteArticle` returns the record stored under
the id as `getArticle` saw it before the call and removes it, leaving the records under other
ids in place, so that a following `getArticle` on the id returns the absent outcome; when no
record has the id it returns the absent outcome, not an error, and the table is unchanged. -/
theorem C10_delete_returns_prior_state (db : DB) (id : String) (hf : db.fault = none) :
    ∃ db1,
      deleteArticle db id = ((getArticle db id).1, db1)
        ∧ (∀ it, db.find id = some it →
            deleteArticle db id = (Except.ok (some (UnmarshalMap (some it) newArticle)), db1))
        ∧ db1.find id = none
        ∧ (getArticle db1 id).1 = Except.ok none
        ∧ (∀ k, k ≠ id → db1.find k = db.find k)
        ∧ (db.find id = none →
            deleteArticle db id = (Except.ok none, db1) ∧ db1.table = db.table) := by
  refine ⟨{ db.record "DeleteItem" with
      table := db.table.filter (fun it => !decide (it.id = id)) }, ?_, ?_, ?_, ?_, ?_, ?_⟩
  · rw [deleteArticle_ok db id hf, getArticle_ok db id hf]
  · intro it hit
    rw [deleteArticle_ok db id hf, hit]
    rfl
  · exact find_filter_key db.table id
  · rw [getArticle_ok _ _ (by exact hf)]
    have h : DB.find { db.record "DeleteItem" with
        table := db.table.filter (fun it => !decide (it.id = id)) } id = none :=
      find_filter_key db.table id
    rw [h]
    rfl
  · intro k hk
    exact find_filter_other db.table id k hk
  · intro habsent
    constructor
    · rw [deleteArticle_ok db id hf, habsent]
      rfl
    · exact filter_of_find_none db.table id habsent

/-- Claim C10 on the sample store: deleting `a1` returns the stored record. -/
theorem C10_delete_returns_prior_state_witness :
    ∃ db1,
      deleteArticle sampleDB "a1" = ((getArticle sampleDB "a1").1, db1)
        ∧ (∀ it, sampleDB.find "a1" = some it →
            deleteArticle sampleDB "a1"
              = (Except.ok (some (UnmarshalMap (some it) newArticle)), db1))
        ∧ db1.find "a1" = none
        ∧ (getArticle db1 "a1").1 = Except.ok none
        ∧ (∀ k, k ≠ "a1" → db1.find k = sampleDB.find k)
        ∧ (sampleDB.find "a1" = none →
            deleteArticle sampleDB "a1" = (Except.ok none, db1)
              ∧ db1.table = sampleDB.table) :=
  C10_delete_returns_prior_state sampleDB "a1" rfl

theorem updateItem_maps_signal (db db1 : DB) (id : String) (u : UpdateArticle) (err : GoError)
    (hcall : db.UpdateItem id id u.Title u.Content ReturnValue.ALL_NEW = (Except.error err, db1))
    (hop : asOperationError err = true) (hcond : asConditionalCheckFailed err = true) :
    updateItem db id u = (Except.ok none, db1) := by
  simp [updateItem, hcall, hop, hcond]

theorem updateItem_error (db : DB) (id : String) (u : UpdateArticle) (err : GoError)
    (h : (updateItem db id u).1 = Except.error err) :
    ¬ (asOperationError err = true ∧ asConditionalCheckFailed err = true) := by
  unfold updateItem at h
  split at h
  · rename_i e db1 _
    by_cases hop : asOperationError e = true
    · by_cases hcond : asConditionalCheckFailed e = true
      · simp [hop, hcond] at h
      · simp [hop, hcond] at h
        subst h
        simp [hcond]
    · simp [hop] at h
      subst h
      simp [hop]
  · split at h <;> simp at h

/-- Claim C7: when the store holds no record under the id and the backend answers,
`updateItem` returns the absent outcome (nil record, nil error) and leaves the table as it
was, so a following `getArticle` on the id is still absent. The conditional-check-failed
signal of the backend, whenever `UpdateItem` returns it, is turned into the absent outcome,
and no error that `updateItem` returns is that signal. -/
theorem C7_update_never_creates (db : DB) (id : String) (u : UpdateArticle)
    (hf : db.fault = none) (habsent : db.find id = none) :
    (∃ db1, updateItem db id u = (Except.ok none, db1)
        ∧ db1.table = db.table
        ∧ db1.find id = none
        ∧ (getArticle db1 id).1 = Except.ok none)
      ∧ (db.UpdateItem id id u.Title u.Content ReturnValue.ALL_NEW).1
          = Except.error conditionalCheckFailedSignal
      ∧ (∀ (d d1 : DB) (k : String) (v : UpdateArticle) (err : GoError),
          d.UpdateItem k k v.Title v.Content ReturnValue.ALL_NEW = (Except.error err, d1) →
          asOperationError err = true → asConditionalCheckFailed err = true →
          updateItem d k v = (Except.ok none, d1))
      ∧ (∀ (d : DB) (k : String) (v : UpdateArticle) (err : GoError),
          (updateItem d k v).1 = Except.error err →
          ¬ (asOperationError err = true ∧ asConditionalCheckFailed err = true)) := by
  refine ⟨⟨db.record "UpdateItem", updateItem_absent db id u hf habsent, rfl, habsent, ?_⟩,
    ?_, ?_, ?_⟩
  · rw [getArticle_ok _ _ (by exact hf), find_record, habsent]
    rfl
  · simp [DB.UpdateItem, hf, habsent]
  · intro d d1 k v err hcall hop hcond
    exact updateItem_maps_signal d d1 k v err hcall hop hcond
  · intro d k v err h
    exact updateItem_error d k v err h

/-- Claim C7 on the sample store: updating the unknown id `zz` writes nothing. -/
theorem C7_update_never_creates_witness :
    ∃ db1, updateItem sampleDB "zz" { Title := "T", Content := "C", Tag := "" }
          = (Except.ok none, db1)
        ∧ db1.table = sampleDB.table
        ∧ db1.find "zz" = none
        ∧ (getArticle db1 "zz").1 = Except.ok none :=
  (C7_update_never_creates sampleDB "zz" { Title := "T", Content := "C", Tag := "" }
    rfl (by decide)).1

/-! ## Properties of the dispatcher -/

theorem validateCreate_false (c : CreateArticle) (h : c.Title = "" ∨ c.Content = "") :
    validateCreate c = false := by
  rcases h with h | h <;> simp [validateCreate, h]

theorem validateCreate_true (c : CreateArticle) (ht : c.Title ≠ "") (hc : c.Content ≠ "") :
    validateCreate c = true := by
  simp [validateCreate, ht, hc]

theorem validateUpdate_false (u : UpdateArticle) (h : u.Title = "" ∨ u.Content = "") :
    validateUpdate u = false := by
  rcases h with h | h <;> simp [validateUpdate, h]

theorem validateUpdate_true (u : UpdateArticle) (ht : u.Title ≠ "") (hc : u.Content ≠ "") :
    validateUpdate u = true := by
  simp [validateUpdate, ht, hc]

/-- Claim C4: for a POST request whose role is `"admin"`: a body that does not decode is
answered 422; a decoded body whose `Title` or `Content` is empty (a missing field decodes
to the empty string) is answered 400, and in both cases the backend state is returned as
it was, with no call made; otherwise, when the store accepts the write, the answer is 201,
its body is the JSON of the new record, its `Location` header is `/article/` followed by
the new record's id, and the record is stored under that id. -/
theorem C4_post_create (env : Env) (db : DB) (req : Request)
    (hm : req.HTTPMethod = "POST")
    (hrole : parseGroup env ((mapGet req.Headers "Authorization").getD "")
      = Run.done "admin") :
    (env.jsonUnmarshalCreate req.Body = none →
        router env db req
          = Run.done ({ StatusCode := 422, Headers := [], Body := "Unprocessable Entity" }, db))
      ∧ (∀ c, env.jsonUnmarshalCreate req.Body = some c → (c.Title = "" ∨ c.Content = "") →
        router env db req
          = Run.done ({ StatusCode := 400, Headers := [], Body := "Bad Request" }, db))
      ∧ (∀ c, env.jsonUnmarshalCreate req.Body = some c → c.Title ≠ "" → c.Content ≠ "" →
        (∀ e, (db.PutItem
          (MarshalMap { Id := env.uuidNewString, Title := c.Title, Content := c.Content })
          ReturnValue.NONE).1 ≠ Except.error e) →
        ∃ resp db1,
          router env db req = Run.done (resp, db1)
            ∧ resp.StatusCode = 201
            ∧ resp.Body = env.jsonMarshal
                { Id := env.uuidNewString, Title := c.Title, Content := c.Content }
            ∧ mapGet resp.Headers "Location" = some ("/article/" ++ env.uuidNewString)
            ∧ db1.find env.uuidNewString
                = some { id := env.uuidNewString, title := some c.Title,
                         content := some c.Content }) := by
  rw [router_post env db req hm, processPost_admin env db req hrole]
  refine ⟨?_, ?_, ?_⟩
  · intro h
    rw [h]
    rfl
  · intro c h hempty
    rw [h]
    simp only [validateCreate_false c hempty, if_true]
    rfl
  · intro c h ht hc haccept
    have hf := putItem_accepted db _ _ haccept
    rw [h]
    simp only [validateCreate_true c ht hc, insertArticle_ok env db c hf]
    refine ⟨{ StatusCode := 201
              Body := env.jsonMarshal
                { Id := env.uuidNewString, Title := c.Title, Content := c.Content }
              Headers := [("Access-Control-Allow-Origin", "*"),
                          ("Access-Control-Allow-Methods", "POST"),
                          ("Access-Control-Allow-Headers", "Content-Type"),
                          ("Location", "/article/" ++ env.uuidNewString)] },
      { db.record "PutItem" with
        table := db.table.filter (fun it => !decide (it.id = env.uuidNewString))
          ++ [MarshalMap { Id := env.uuidNewString, Title := c.Title, Content := c.Content }] },
      by simp, rfl, rfl, by simp [mapGet, List.lookup], ?_⟩
    exact find_append_new db.table
      { id := env.uuidNewString, title := some c.Title, content := some c.Content }

/-- Claim C4 on the sample store, for an admin POST: a body without `Title` is answered
400, a body that does not decode 422, and a full body 201 with the new record. -/
theorem C4_post_create_witness :
    router sampleEnv sampleDB (sampleRequest "POST" "h.admin.s" "content-only" [])
        = Run.done ({ StatusCode := 400, Headers := [], Body := "Bad Request" }, sampleDB)
      ∧ router sampleEnv sampleDB (sampleRequest "POST" "h.admin.s" "not json" [])
        = Run.done
            ({ StatusCode := 422, Headers := [], Body := "Unprocessable Entity" }, sampleDB)
      ∧ ∃ resp db1,
          router sampleEnv sampleDB (sampleRequest "POST" "h.admin.s" "title+content" [])
            = Run.done (resp, db1)
          ∧ resp.StatusCode = 201
          ∧ resp.Body = "<7f3c|T|C>"
          ∧ mapGet resp.Headers "Location" = some "/article/7f3c"
          ∧ db1.find "7f3c" = some { id := "7f3c", title := some "T", content := some "C" } :=
  ⟨(C4_post_create sampleEnv sampleDB (sampleRequest "POST" "h.admin.s" "content-only" [])
      rfl (by decide)).2.1 { Title := "", Content := "C", Tag := "" } rfl (Or.inl rfl),
    (C4_post_create sampleEnv sampleDB (sampleRequest "POST" "h.admin.s" "not json" [])
      rfl (by decide)).1 rfl,
    (C4_post_create sampleEnv sampleDB (sampleRequest "POST" "h.admin.s" "title+content" [])
      rfl (by decide)).2.2 { Title := "T", Content := "C", Tag := "news" } rfl
        (by decide) (by decide) (by intro e h; simp [DB.PutItem, sampleDB] at h)⟩

/-- Claim C5: a PUT request is handled without any role check, the answer being the same
whatever the headers and the token decoder are. Without a path id the answer is 400, decided
before the body is looked at; else a body that does not decode is answered 422; else an
empty `Title` or `Content` is answered 400; else, with the backend answering, the answer is
404 when the store holds no record under the id, and otherwise 200 with the JSON of the
updated record, which keeps its id and carries the new title and content, and a `Location`
header `/todo/` followed by the id. -/
theorem C5_put_update (env : Env) (db : DB) (req : Request) (hm : req.HTTPMethod = "PUT") :
    (∀ headers parse,
        router { env with jwtParse := parse } db { req with Headers := headers }
          = router env db req)
      ∧ (mapGet req.PathParameters "id" = none →
        router env db req
          = Run.done ({ StatusCode := 400, Headers := [], Body := "Bad Request" }, db))
      ∧ (∀ id, mapGet req.PathParameters "id" = some id →
        (env.jsonUnmarshalUpdate req.Body = none →
          router env db req
            = Run.done
                ({ StatusCode := 422, Headers := [], Body := "Unprocessable Entity" }, db))
        ∧ (∀ u, env.jsonUnmarshalUpdate req.Body = some u → (u.Title = "" ∨ u.Content = "") →
          router env db req
            = Run.done ({ StatusCode := 400, Headers := [], Body := "Bad Request" }, db))
        ∧ (∀ u, env.jsonUnmarshalUpdate req.Body = some u → u.Title ≠ "" → u.Content ≠ "" →
          db.fault = none →
          (db.find id = none →
            ∃ db1, router env db req
                = Run.done ({ StatusCode := 404, Headers := [], Body := "Not Found" }, db1)
              ∧ db1.table = db.table)
          ∧ (∀ old, db.find id = some old →
            ∃ resp db1, router env db req = Run.done (resp, db1)
              ∧ resp.StatusCode = 200
              ∧ resp.Body = env.jsonMarshal { Id := id, Title := u.Title, Content := u.Content }
              ∧ mapGet resp.Headers "Location" = some ("/todo/" ++ id)
              ∧ db1.find id
                  = some { old with title := some u.Title, content := some u.Content }))) := by
  refine ⟨?_, ?_, ?_⟩
  · intro headers parse
    simp [router, hm, processPut]
  · intro h
    rw [router_put env db req hm]
    simp [processPut, h, clientError, statusText]
  · intro id hid
    rw [router_put env db req hm]
    refine ⟨?_, ?_, ?_⟩
    · intro h
      simp [processPut, hid, h, clientError, statusText]
    · intro u h hempty
      simp [processPut, hid, h, validateUpdate_false u hempty, clientError, statusText]
    · intro u h ht hc hf
      constructor
      · intro habsent
        refine ⟨db.record "UpdateItem", ?_, rfl⟩
        simp [processPut, hid, h, validateUpdate_true u ht hc,
          updateItem_absent db id u hf habsent, clientError, statusText]
      · intro old hold
        refine ⟨{ StatusCode := 200
                  Body := env.jsonMarshal { Id := id, Title := u.Title, Content := u.Content }
                  Headers := [("Location", "/todo/" ++ id),
                              ("Access-Control-Allow-Origin", "*"),
                              ("Access-Control-Allow-Methods", "PUT"),
                              ("Access-Control-Allow-Headers", "Content-Type")] },
          { db.record "UpdateItem" with
            table := db.table.map (fun it =>
              if it.id = id then { it with title := some u.Title, content := some u.Content }
              else it) }, ?_, ?_, ?_, ?_, ?_⟩
        · simp only [processPut, hid, h, validateUpdate_true u ht hc,
            updateItem_present db id u old hf hold]
          simp
        · rfl
        · rfl
        · simp [mapGet, List.lookup]
        · exact find_map_update db.table id
            (fun it => { it with title := some u.Title, content := some u.Content })
            (fun _ => rfl) old hold

/-- Claim C5 on the sample store, for PUT requests carrying a token on which `parseGroup`
panics: the unknown id `zz` is answered 404 and the table is left as it was; the known id
`a1` is answered 200 with the updated record. -/
theorem C5_put_update_witness :
    (∃ db1,
        router sampleEnv sampleDB
            (sampleRequest "PUT" "h.scalar.s" "title+content" [("id", "zz")])
          = Run.done ({ StatusCode := 404, Headers := [], Body := "Not Found" }, db1)
        ∧ db1.table = sampleDB.table)
      ∧ ∃ resp db1,
          router sampleEnv sampleDB
              (sampleRequest "PUT" "h.scalar.s" "title+content" [("id", "a1")])
            = Run.done (resp, db1)
          ∧ resp.StatusCode = 200
          ∧ resp.Body = "<a1|T|C>"
          ∧ mapGet resp.Headers "Location" = some "/todo/a1"
          ∧ db1.find "a1" = some { id := "a1", title := some "T", content := some "C" } :=
  ⟨((C5_put_update sampleEnv sampleDB
        (sampleRequest "PUT" "h.scalar.s" "title+content" [("id", "zz")])
        rfl).2.2 "zz" rfl).2.2 { Title := "T", Content := "C", Tag := "news" } rfl
          (by decide) (by decide) rfl |>.1 (by decide),
    ((C5_put_update sampleEnv sampleDB
        (sampleRequest "PUT" "h.scalar.s" "title+content" [("id", "a1")])
        rfl).2.2 "a1" rfl).2.2 { Title := "T", Content := "C", Tag := "news" } rfl
          (by decide) (by decide) rfl |>.2
            { id := "a1", title := some "T1", content := some "C1" } (by decide)⟩

/-! ## Properties of the pagination loop -/

theorem goAppend_some {α : Type} (a b : List α) : goAppend (some a) (some b) = some (a ++ b) := by
  cases b <;> rfl

theorem recordsOf_cons (p : ScanOutput) (ps : List ScanOutput) :
    recordsOf (p :: ps)
      = p.Items.map (fun it => UnmarshalMap (some it) newArticle) ++ recordsOf ps := by
  simp [recordsOf]

theorem recordsOf_length (pages : List ScanOutput) :
    (recordsOf pages).length = (pages.map (fun p => p.Items.length)).sum := by
  induction pages with
  | nil => rfl
  | cons p ps ih => simp [recordsOf_cons, ih]

theorem scriptLoop_complete (pages : List ScanOutput) (last : ScanOutput) :
    ∀ (rounds : Nat) (token : Option String) (acc : List Article) (log : List (Option String)),
      (∀ p ∈ pages, p.LastEvaluatedKey ≠ none) → last.LastEvaluatedKey = none →
      pages.length < rounds →
      listArticlesLoop ScanScript.Scan rounds
          { pending := (pages ++ [last]).map Except.ok, startKeys := log } token (some acc)
        = Run.done (Except.ok (some (acc ++ recordsOf (pages ++ [last]))),
            { pending := [],
              startKeys := log ++ token :: pages.map (fun p => p.LastEvaluatedKey) }) := by
  induction pages with
  | nil =>
    intro rounds token acc log _ hlast hlen
    obtain ⟨r, rfl⟩ : ∃ r, rounds = r + 1 := ⟨rounds - 1, by simp at hlen; omega⟩
    simp [listArticlesLoop, ScanScript.Scan, hlast, UnmarshalListOfMaps, goAppend_some,
      recordsOf]
  | cons p ps ih =>
    intro rounds token acc log hmore hlast hlen
    obtain ⟨r, rfl⟩ : ∃ r, rounds = r + 1 := ⟨rounds - 1, by simp at hlen; omega⟩
    have hp : p.LastEvaluatedKey ≠ none := hmore p (by simp)
    obtain ⟨k, hk⟩ : ∃ k, p.LastEvaluatedKey = some k := by
      cases h : p.LastEvaluatedKey with
      | none => exact absurd h hp
      | some k => exact ⟨k, rfl⟩
    have ih1 := ih r (some k)
      (acc ++ p.Items.map (fun it => UnmarshalMap (some it) newArticle)) (log ++ [token])
      (fun q hq => hmore q (by simp [hq])) hlast (by simp at hlen; omega)
    simp only [List.cons_append, List.map_cons, listArticlesLoop, ScanScript.Scan, hk,
      UnmarshalListOfMaps, goAppend_some]
    rw [ih1]
    simp [recordsOf_cons, hk]

theorem scriptLoop_failure (pages : List ScanOutput) (err : GoError)
    (later : List (Except GoError ScanOutput)) :
    ∀ (rounds : Nat) (token : Option String) (acc : List Article) (log : List (Option String)),
      (∀ p ∈ pages, p.LastEvaluatedKey ≠ none) → pages.length < rounds →
      listArticlesLoop ScanScript.Scan rounds
          { pending := pages.map Except.ok ++ Except.error err :: later, startKeys := log }
          token (some acc)
        = Run.done (Except.error err,
            { pending := later,
              startKeys := log ++ token :: pages.map (fun p => p.LastEvaluatedKey) }) := by
  induction pages with
  | nil =>
    intro rounds token acc log _ hlen
    obtain ⟨r, rfl⟩ : ∃ r, rounds = r + 1 := ⟨rounds - 1, by simp at hlen; omega⟩
    simp [listArticlesLoop, ScanScript.Scan]
  | cons p ps ih =>
    intro rounds token acc log hmore hlen
    obtain ⟨r, rfl⟩ : ∃ r, rounds = r + 1 := ⟨rounds - 1, by simp at hlen; omega⟩
    have hp : p.LastEvaluatedKey ≠ none := hmore p (by simp)
    obtain ⟨k, hk⟩ : ∃ k, p.LastEvaluatedKey = some k := by
      cases h : p.LastEvaluatedKey with
      | none => exact absurd h hp
      | some k => exact ⟨k, rfl⟩
    have ih1 := ih r (some k)
      (acc ++ p.Items.map (fun it => UnmarshalMap (some it) newArticle)) (log ++ [token])
      (fun q hq => hmore q (by simp [hq])) (by simp at hlen; omega)
    simp only [List.cons_append, List.map_cons, listArticlesLoop, ScanScript.Scan, hk,
      UnmarshalListOfMaps, goAppend_some]
    rw [ih1]
    simp [hk]

theorem dropWhile_key (pre post : List Item) (x : Item) (h : ∀ y ∈ pre, y.id ≠ x.id) :
    (pre ++ x :: post).dropWhile (fun it => !decide (it.id = x.id)) = x :: post := by
  induction pre with
  | nil => simp [List.dropWhile]
  | cons y pre ih =>
    have hy : y.id ≠ x.id := h y (by simp)
    simp only [List.cons_append]
    rw [List.dropWhile_cons_of_pos (by simp [hy])]
    exact ih (fun z hz => h z (by simp [hz]))

theorem remaining_after (d : DB) (pre post : List Item) (x : Item)
    (ht : d.table = pre ++ x :: post) (hnd : (d.table.map (fun it => it.id)).Nodup) :
    d.remaining (some x.id) = post := by
  have hpre : ∀ y ∈ pre, y.id ≠ x.id := by
    intro y hy heq
    rw [ht, List.map_append, List.nodup_append] at hnd
    exact hnd.2.2 (List.mem_map.2 ⟨y, hy, rfl⟩) (List.mem_map.2 ⟨x, by simp, heq.symm⟩)
  simp only [DB.remaining]
  rw [ht, dropWhile_key pre post x hpre]
  rfl

theorem tableLoop_complete :
    ∀ (rounds : Nat) (d : DB) (pre rest : List Item) (token : Option String)
      (acc : List Article),
      d.table = pre ++ rest → (d.table.map (fun it => it.id)).Nodup → d.fault = none →
      0 < d.pageSize → d.remaining token = rest → rest.length < rounds →
      ∃ d1, listArticlesLoop DB.Scan rounds d token (some acc)
          = Run.done (Except.ok
              (some (acc ++ rest.map (fun it => UnmarshalMap (some it) newArticle))), d1)
        ∧ d1.table = d.table := by
  intro rounds
  induction rounds with
  | zero => intro d pre rest token acc _ _ _ _ _ hlen; omega
  | succ r ih =>
    intro d pre rest token acc ht hnd hf hps hrem hlen
    by_cases hdrop : rest.drop d.pageSize = []
    · refine ⟨d.record "Scan", ?_, rfl⟩
      have htake : rest.take d.pageSize = rest :=
        List.take_of_length_le (List.drop_eq_nil_iff.1 hdrop)
      simp [listArticlesLoop, DB.Scan, hf, hrem, hdrop, htake, UnmarshalListOfMaps,
        goAppend_some]
    · have hlong : d.pageSize < rest.length := by
        by_contra hle
        exact hdrop (List.drop_eq_nil_iff.2 (by omega))
      have hne : rest.take d.pageSize ≠ [] := by
        intro h0
        have := congrArg List.length h0
        rw [List.length_take, List.length_nil] at this
        omega
      obtain ⟨x, hx⟩ : ∃ x, (rest.take d.pageSize).getLast? = some x :=
        ⟨_, List.getLast?_eq_getLast _ hne⟩
      obtain ⟨front, hfront⟩ := List.getLast?_eq_some_iff.1 hx
      have hsplit : d.table = (pre ++ front) ++ x :: rest.drop d.pageSize := by
        rw [ht]
        conv_lhs => rw [← List.take_append_drop d.pageSize rest, hfront]
        simp
      have hnext : (d.record "Scan").remaining (some x.id) = rest.drop d.pageSize :=
        remaining_after (d.record "Scan") (pre ++ front) (rest.drop d.pageSize) x hsplit hnd
      obtain ⟨d1, hrun, htab⟩ := ih (d.record "Scan") (pre ++ rest.take d.pageSize)
        (rest.drop d.pageSize) (some x.id)
        (acc ++ (rest.take d.pageSize).map (fun it => UnmarshalMap (some it) newArticle))
        (by
          show d.table = _
          rw [ht, List.append_assoc, List.take_append_drop])
        hnd hf hps hnext (by simp; omega)
      refine ⟨d1, ?_, htab⟩
      simp only [listArticlesLoop, DB.Scan, hf, hrem, hdrop, if_false, hx, Option.map_some',
        UnmarshalListOfMaps, goAppend_some]
      rw [hrun]
      rw [List.append_assoc, ← List.map_append, List.take_append_drop]

theorem listArticles_table (rounds : Nat) (d : DB)
    (hnd : (d.table.map (fun it => it.id)).Nodup) (hf : d.fault = none)
    (hps : 0 < d.pageSize) (hlen : d.table.length < rounds) :
    ∃ d1, listArticles DB.Scan rounds d
        = Run.done (Except.ok
            (some (d.table.map (fun it => UnmarshalMap (some it) newArticle))), d1)
      ∧ d1.table = d.table := by
  have h := tableLoop_complete rounds d [] d.table none [] rfl hnd hf hps rfl hlen
  simpa [listArticles] using h

theorem listArticles_empty (rounds : Nat) (d : DB) (hempty : d.table = [])
    (hf : d.fault = none) (hrounds : 0 < rounds) :
    listArticles DB.Scan rounds d = Run.done (Except.ok (some []), d.record "Scan") := by
  obtain ⟨r, rfl⟩ : ∃ r, rounds = r + 1 := ⟨rounds - 1, by omega⟩
  simp [listArticles, listArticlesLoop, DB.Scan, hf, DB.remaining, hempty,
    UnmarshalListOfMaps, goAppend_some]

/-- Claim C8: against any finite sequence of scan pages of which every page but the last
carries a continuation token, `listArticles` returns, once allowed one more round than there
are pages with a token, exactly the records of all pages in order, as many as the pages hold;
the first request carries no start key and each later one the token of the page before. If
a request fails after any number of pages, the result is that failure, with no list. On a
table with distinct keys the result is the full table, for every positive page size. -/
theorem C8_list_follows_pages (pages : List ScanOutput) (last : ScanOutput) (rounds : Nat)
    (hmore : ∀ p ∈ pages, p.LastEvaluatedKey ≠ none) (hlast : last.LastEvaluatedKey = none)
    (hrounds : pages.length < rounds) :
    listArticles ScanScript.Scan rounds (scripted ((pages ++ [last]).map Except.ok))
        = Run.done (Except.ok (some (recordsOf (pages ++ [last]))),
            { pending := [],
              startKeys := none :: pages.map (fun p => p.LastEvaluatedKey) })
      ∧ (recordsOf (pages ++ [last])).length
          = ((pages ++ [last]).map (fun p => p.Items.length)).sum
      ∧ (∀ (err : GoError) (later : List (Except GoError ScanOutput)),
          listArticles ScanScript.Scan rounds
              (scripted (pages.map Except.ok ++ Except.error err :: later))
            = Run.done (Except.error err,
                { pending := later,
                  startKeys := none :: pages.map (fun p => p.LastEvaluatedKey) }))
      ∧ (∀ (d : DB), (d.table.map (fun it => it.id)).Nodup → d.fault = none →
          0 < d.pageSize → d.table.length < rounds →
          ∃ res d1, listArticles DB.Scan rounds d = Run.done (Except.ok (some res), d1)
            ∧ res = d.table.map (fun it => UnmarshalMap (some it) newArticle)
            ∧ res.length = d.table.length) := by
  refine ⟨?_, recordsOf_length _, ?_, ?_⟩
  · have h := scriptLoop_complete pages last rounds none [] [] hmore hlast hrounds
    simpa [listArticles, scripted] using h
  · intro err later
    have h := scriptLoop_failure pages err later rounds none [] [] hmore hrounds
    simpa [listArticles, scripted] using h
  · intro d hnd hf hps hlen
    obtain ⟨d1, hrun, _⟩ := listArticles_table rounds d hnd hf hps hlen
    exact ⟨_, d1, hrun, rfl, by simp⟩

/-- Claim C8 on two pages of one record each, the first with the token `a1`: both records
are returned and the second request starts at `a1`; and when the second request fails
instead, the failure is returned. -/
theorem C8_list_follows_pages_witness :
    listArticles ScanScript.Scan 2
        (scripted
          [Except.ok { Items := [{ id := "a1", title := some "T1", content := some "C1" }],
                       LastEvaluatedKey := some "a1" },
           Except.ok { Items := [{ id := "a2", title := some "T2", content := some "C2" }],
                       LastEvaluatedKey := none }])
        = Run.done (Except.ok (some [{ Id := "a1", Title := "T1", Content := "C1" },
                                     { Id := "a2", Title := "T2", Content := "C2" }]),
            { pending := [], startKeys := [none, some "a1"] })
      ∧ listArticles ScanScript.Scan 2
        (scripted
          [Except.ok { Items := [{ id := "a1", title := some "T1", content := some "C1" }],
                       LastEvaluatedKey := some "a1" },
           Except.error [ErrNode.operationError, ErrNode.other "throttled"]])
        = Run.done (Except.error [ErrNode.operationError, ErrNode.other "throttled"],
            { pending := [], startKeys := [none, some "a1"] }) :=
  ⟨(C8_list_follows_pages
      [{ Items := [{ id := "a1", title := some "T1", content := some "C1" }],
         LastEvaluatedKey := some "a1" }]
      { Items := [{ id := "a2", title := some "T2", content := some "C2" }],
        LastEvaluatedKey := none }
      2 (by simp) rfl (by decide)).1,
    (C8_list_follows_pages
      [{ Items := [{ id := "a1", title := some "T1", content := some "C1" }],
         LastEvaluatedKey := some "a1" }]
      { Items := [{ id := "a2", title := some "T2", content := some "C2" }],
        LastEvaluatedKey := none }
      2 (by simp) rfl (by decide)).2.2.1
        [ErrNode.operationError, ErrNode.other "throttled"] []⟩

theorem processGet_tag (env : Env) (db : DB) (req : Request) (tag : String)
    (htag : mapGet req.QueryStringParameters "tag" = some tag) :
    processGet env db req = processGetArticlesByTag env db tag := by
  simp [processGet, htag]

/-- Claim C6: a GET request with a `tag` query parameter performs the tag lookup on that tag,
whatever the path parameters: the answer is 500 when the lookup fails, 404 when it finds no
record and 200 with the JSON of the record it finds, and the backend state is the one the
lookup leaves; else, with a path id and the backend answering, the answer is
404 when the store holds no record under the id and 200 with that record's JSON when it
does; else all records are listed: on an empty store the answer is 200 with body `[]`, and
on a store with distinct keys, a positive page size and enough rounds it is 200 with the
JSON array of every stored record. -/
theorem C6_get_dispatch (env : Env) (db : DB) (req : Request) (hm : req.HTTPMethod = "GET") :
    (∀ tag, mapGet req.QueryStringParameters "tag" = some tag →
        (∀ err db1, env.getArticleByTag db tag = (Except.error err, db1) →
          router env db req
            = Run.done
                ({ StatusCode := 500, Headers := [], Body := "Internal Server Error" }, db1))
        ∧ (∀ db1, env.getArticleByTag db tag = (Except.ok none, db1) →
          router env db req
            = Run.done ({ StatusCode := 404, Headers := [], Body := "Not Found" }, db1))
        ∧ (∀ article db1, env.getArticleByTag db tag = (Except.ok (some article), db1) →
          router env db req
            = Run.done
                ({ StatusCode := 200
                   Headers := [("Access-Control-Allow-Origin", "*"),
                               ("Access-Control-Allow-Methods", "GET"),
                               ("Access-Control-Allow-Headers", "Content-Type")]
                   Body := env.jsonMarshal article }, db1))
        ∧ ∀ params, router env db { req with PathParameters := params } = router env db req)
      ∧ (mapGet req.QueryStringParameters "tag" = none → db.fault = none →
        (∀ id, mapGet req.PathParameters "id" = some id →
          (db.find id = none →
            router env db req
              = Run.done ({ StatusCode := 404, Headers := [], Body := "Not Found" },
                  db.record "GetItem"))
          ∧ (∀ it, db.find id = some it →
            router env db req
              = Run.done
                  ({ StatusCode := 200
                     Headers := [("Access-Control-Allow-Origin", "*"),
                                 ("Access-Control-Allow-Methods", "GET"),
                                 ("Access-Control-Allow-Headers", "Content-Type")]
                     Body := env.jsonMarshal (UnmarshalMap (some it) newArticle) },
                    db.record "GetItem")))
        ∧ (mapGet req.PathParameters "id" = none →
          (db.table = [] → 0 < env.scanRounds →
            router env db req
              = Run.done
                  ({ StatusCode := 200
                     Headers := [("Access-Control-Allow-Origin", "*"),
                                 ("Access-Control-Allow-Methods", "GET"),
                                 ("Access-Control-Allow-Headers", "Content-Type")]
                     Body := "[]" }, db.record "Scan"))
          ∧ ((db.table.map (fun it => it.id)).Nodup → 0 < db.pageSize →
            db.table.length < env.scanRounds →
            ∃ db1, router env db req
              = Run.done
                  ({ StatusCode := 200
                     Headers := [("Access-Control-Allow-Origin", "*"),
                                 ("Access-Control-Allow-Methods", "GET"),
                                 ("Access-Control-Allow-Headers", "Content-Type")]
                     Body := "[" ++ ",".intercalate (db.table.map (fun it =>
                       env.jsonMarshal (UnmarshalMap (some it) newArticle))) ++ "]" },
                    db1)))) := by
  rw [router_get env db req hm]
  refine ⟨?_, ?_⟩
  · intro tag htag
    rw [processGet_tag env db req tag htag]
    refine ⟨?_, ?_, ?_, ?_⟩
    · intro err db1 h
      simp [processGetArticlesByTag, h, serverError, statusText]
    · intro db1 h
      simp [processGetArticlesByTag, h, clientError, statusText]
    · intro article db1 h
      simp [processGetArticlesByTag, h]
    · intro params
      simp [router, hm, processGet, htag]
  · intro hnotag hf
    refine ⟨?_, ?_⟩
    · intro id hid
      constructor
      · intro habsent
        simp [processGet, hnotag, hid, processGetArticle, getArticle_ok db id hf, habsent,
          clientError, statusText]
      · intro it hit
        simp [processGet, hnotag, hid, processGetArticle, getArticle_ok db id hf, hit]
    · intro hnoid
      constructor
      · intro hempty hrounds
        simp only [processGet, hnotag, hnoid, processGetArticles,
          listArticles_empty env.scanRounds db hempty hf hrounds, jsonMarshalSlice]
        rfl
      · intro hnd hps hlen
        obtain ⟨d1, hrun, _⟩ := listArticles_table env.scanRounds db hnd hf hps hlen
        refine ⟨d1, ?_⟩
        simp only [processGet, hnotag, hnoid, processGetArticles, hrun, jsonMarshalSlice,
          List.map_map]
        rfl

/-- Claim C6 on the sample stores: listing the empty store answers 200 with the empty
array; listing the two-record store, one record per page, answers 200 with both records;
a request with both a `tag` parameter and a path id is answered from the tag lookup, 200
with the record found for `news`, 404 for a tag without record and 500 when the lookup
fails; the unknown id `zz` is answered 404. -/
theorem C6_get_dispatch_witness :
    router sampleEnv emptyDB
        { HTTPMethod := "GET", PathParameters := [], QueryStringParameters := [],
          Headers := [], Body := "" }
        = Run.done
            ({ StatusCode := 200
               Headers := [("Access-Control-Allow-Origin", "*"),
                           ("Access-Control-Allow-Methods", "GET"),
                           ("Access-Control-Allow-Headers", "Content-Type")]
               Body := "[]" }, emptyDB.record "Scan")
      ∧ (∃ db1, router sampleEnv sampleDB
          { HTTPMethod := "GET", PathParameters := [], QueryStringParameters := [],
            Headers := [], Body := "" }
        = Run.done
            ({ StatusCode := 200
               Headers := [("Access-Control-Allow-Origin", "*"),
                           ("Access-Control-Allow-Methods", "GET"),
                           ("Access-Control-Allow-Headers", "Content-Type")]
               Body := "[<a1|T1|C1>,<a2|T2|C2>]" }, db1))
      ∧ router sampleEnv sampleDB
          { HTTPMethod := "GET", PathParameters := [("id", "a1")],
            QueryStringParameters := [("tag", "news")], Headers := [], Body := "" }
        = Run.done
            ({ StatusCode := 200
               Headers := [("Access-Control-Allow-Origin", "*"),
                           ("Access-Control-Allow-Methods", "GET"),
                           ("Access-Control-Allow-Headers", "Content-Type")]
               Body := "<a2|T2|C2>" }, sampleDB.record "Query")
      ∧ router sampleEnv sampleDB
          { HTTPMethod := "GET", PathParameters := [("id", "a1")],
            QueryStringParameters := [("tag", "misc")], Headers := [], Body := "" }
        = Run.done ({ StatusCode := 404, Headers := [], Body := "Not Found" },
            sampleDB.record "Query")
      ∧ router sampleEnv sampleDB
          { HTTPMethod := "GET", PathParameters := [("id", "a1")],
            QueryStringParameters := [("tag", "down")], Headers := [], Body := "" }
        = Run.done
            ({ StatusCode := 500, Headers := [], Body := "Internal Server Error" },
              sampleDB.record "Query")
      ∧ router sampleEnv sampleDB
          { HTTPMethod := "GET", PathParameters := [("id", "zz")],
            QueryStringParameters := [], Headers := [], Body := "" }
        = Run.done ({ StatusCode := 404, Headers := [], Body := "Not Found" },
            sampleDB.record "GetItem") :=
  ⟨((C6_get_dispatch sampleEnv emptyDB
      { HTTPMethod := "GET", PathParameters := [], QueryStringParameters := [],
        Headers := [], Body := "" } rfl).2 rfl rfl).2 rfl |>.1 rfl (by decide),
    ((C6_get_dispatch sampleEnv sampleDB
      { HTTPMethod := "GET", PathParameters := [], QueryStringParameters := [],
        Headers := [], Body := "" } rfl).2 rfl rfl).2 rfl |>.2
          (by decide) (by decide) (by decide),
    ((C6_get_dispatch sampleEnv sampleDB
      { HTTPMethod := "GET", PathParameters := [("id", "a1")],
        QueryStringParameters := [("tag", "news")], Headers := [], Body := "" } rfl).1
          "news" rfl).2.2.1 { Id := "a2", Title := "T2", Content := "C2" }
            (sampleDB.record "Query") rfl,
    ((C6_get_dispatch sampleEnv sampleDB
      { HTTPMethod := "GET", PathParameters := [("id", "a1")],
        QueryStringParameters := [("tag", "misc")], Headers := [], Body := "" } rfl).1
          "misc" rfl).2.1 (sampleDB.record "Query") rfl,
    ((C6_get_dispatch sampleEnv sampleDB
      { HTTPMethod := "GET", PathParameters := [("id", "a1")],
        QueryStringParameters := [("tag", "down")], Headers := [], Body := "" } rfl).1
          "down" rfl).1 [ErrNode.operationError, ErrNode.other "throttled"]
            (sampleDB.record "Query") rfl,
    (((C6_get_dispatch sampleEnv sampleDB
      { HTTPMethod := "GET", PathParameters := [("id", "zz")],
        QueryStringParameters := [], Headers := [], Body := "" } rfl).2 rfl rfl).1
          "zz" rfl).1 (by decide)⟩

end CrmBack
